import Mathlib

/-!
Verification of the cc-secp256k1 adapter (src/cc-secp256k1/src/lib.rs).

The adapter wraps the external secp256k1 crate behind the capability
contracts of the cc crate.  The adapter code itself is embedded faithfully
below; the external curve engine is abstracted as a record of pure
functions (CurveEngine), and the documented engine contract of spec
section 6 appears as explicit hypotheses on the theorems.  Byte strings
are modelled as lists of natural numbers.
-/

/-- Modelled from the spec: the cc crate digest type, a fixed-length
(32-byte) opaque byte sequence representing a pre-hashed message
(spec sections 3 and 4.1).  The cc crate itself is not under src. -/
structure Hash where
  bytes : List Nat
  deriving DecidableEq

/-- Modelled from the spec: the cc crate error taxonomy, a closed set of
signing-domain failure kinds (spec section 4.2).  The variant names are
exactly the ones the adapter source names in the mapper match. -/
inductive CryptoError where
  | InvalidSignature
  | InvalidLength
  | InvalidPublicKey
  | InvalidPrivateKey
  | Other (msg : String)
  deriving DecidableEq

/-- The native error enumeration of the external secp256k1 crate.  The
eight variants are the ones matched exhaustively by the backend error
mapper in the source (lines 142 to 151). -/
inductive Secp256k1.Error where
  | IncorrectSignature
  | InvalidMessage
  | InvalidPublicKey
  | InvalidSignature
  | InvalidSecretKey
  | InvalidRecoveryId
  | InvalidTweak
  | NotEnoughMemory
  deriving DecidableEq

/-- Newtype wrapper around the native secp256k1 error, pub struct
Secp256k1Error in the source (line 22). -/
structure Secp256k1Error where
  err : Secp256k1.Error
  deriving DecidableEq

/-- The sign-only engine context Secp256k1 SignOnly: it carries no data
relevant to the model, so it is a singleton capability token produced by
signing_only. -/
inductive SignOnly where
  | signingOnly
  deriving DecidableEq

/-- The verify-only engine context Secp256k1 VerifyOnly, a singleton
capability token produced by verification_only. -/
inductive VerifyOnly where
  | verificationOnly
  deriving DecidableEq

/-- Modelled from the spec: the external curve engine collaborator
(spec section 6), that is, the primitives of the secp256k1 crate used by
the adapter: parse-secret, parse-public, parse-signature, serialize for
each, derive-public-from-secret, sign and verify.  The engine is kept
abstract; each theorem states which part of the documented engine
contract it relies on. -/
structure CurveEngine (SK PK SG : Type) where
  secretKeyFromSlice : List Nat → Except Secp256k1.Error SK
  secretKeySerialize : SK → List Nat
  publicKeyFromSlice : List Nat → Except Secp256k1.Error PK
  publicKeySerialize : PK → List Nat
  signatureFromCompact : List Nat → Except Secp256k1.Error SG
  signatureSerializeCompact : SG → List Nat
  publicKeyFromSecretKey : SK → PK
  sign : List Nat → SK → SG
  verify : List Nat → SG → PK → Except Secp256k1.Error Unit

/-- Accessor of the modelled cc Hash: returns the 32 digest bytes. -/
def Hash.to_bytes (h : Hash) : List Nat :=
  h.bytes

/-- Pre-hashed message bridge, pub struct HashedMessage in the source
(line 24): wraps a digest. -/
structure HashedMessage where
  hash : Hash

/-- HashedMessage.to_bytes from the source (lines 160 to 162). -/
def HashedMessage.to_bytes (m : HashedMessage) : List Nat :=
  m.hash.to_bytes

/-- The ThirtyTwoByteHash impl for HashedMessage (lines 165 to 168):
into_32 returns to_bytes. -/
def HashedMessage.into_32 (m : HashedMessage) : List Nat :=
  m.to_bytes

/-- The secp256k1 Message type: 32 bytes of pre-hashed data. -/
abbrev Message := List Nat

/-- Message.from applied to a ThirtyTwoByteHash value, as the adapter
uses it: takes the 32 bytes via into_32. -/
def Message.fromHashed (m : HashedMessage) : Message :=
  m.into_32

/-- The backend error mapper, impl From Secp256k1Error for CryptoError
(source lines 138 to 153), translated arm for arm. -/
def CryptoError.fromSecp256k1Error (e : Secp256k1Error) : CryptoError :=
  match e.err with
  | Secp256k1.Error.IncorrectSignature => CryptoError.InvalidSignature
  | Secp256k1.Error.InvalidMessage => CryptoError.InvalidLength
  | Secp256k1.Error.InvalidPublicKey => CryptoError.InvalidPublicKey
  | Secp256k1.Error.InvalidSignature => CryptoError.InvalidSignature
  | Secp256k1.Error.InvalidSecretKey => CryptoError.InvalidPrivateKey
  | Secp256k1.Error.InvalidRecoveryId => CryptoError.InvalidSignature
  | Secp256k1.Error.InvalidTweak => CryptoError.Other ("secp256k1: bad tweak")
  | Secp256k1.Error.NotEnoughMemory => CryptoError.Other ("secp256k1: not enough memory")

/-- pub struct Secp256k1PrivateKey (source lines 6 to 9): a secret key of
the engine plus a sign-only context. -/
structure Secp256k1PrivateKey (SK : Type) where
  secret_key : SK
  engine : SignOnly
  deriving DecidableEq

/-- pub struct Secp256k1PublicKey (source lines 11 to 14): a public key
of the engine plus a verify-only context. -/
structure Secp256k1PublicKey (PK : Type) where
  pub_key : PK
  engine : VerifyOnly
  deriving DecidableEq

/-- pub struct Secp256k1Signature (source lines 16 to 19): a signature of
the engine plus a verify-only context. -/
structure Secp256k1Signature (SG : Type) where
  sig : SG
  engine : VerifyOnly
  deriving DecidableEq

variable {SK PK SG : Type}

/-- impl TryFrom for Secp256k1PrivateKey (source lines 30 to 39):
SecretKey::from_slice, errors wrapped by Secp256k1Error and mapped into
CryptoError by the question mark operator. -/
def Secp256k1PrivateKey.try_from (E : CurveEngine SK PK SG) (bytes : List Nat) :
    Except CryptoError (Secp256k1PrivateKey SK) :=
  match E.secretKeyFromSlice bytes with
  | Except.error e => Except.error (CryptoError.fromSecp256k1Error (Secp256k1Error.mk e))
  | Except.ok secret_key =>
      Except.ok { secret_key := secret_key, engine := SignOnly.signingOnly }

/-- Secp256k1PrivateKey::sign_message (source lines 45 to 51): bridge the
digest into a Message, sign with the engine, package the signature with a
fresh verify-only context.  The return type is the signature type itself,
not a result. -/
def Secp256k1PrivateKey.sign_message (E : CurveEngine SK PK SG)
    (self : Secp256k1PrivateKey SK) (msg : Hash) : Secp256k1Signature SG :=
  let m := Message.fromHashed (HashedMessage.mk msg)
  let sig := E.sign m self.secret_key
  { sig := sig, engine := VerifyOnly.verificationOnly }

/-- Secp256k1PrivateKey::pub_key (source lines 53 to 58):
PublicKey::from_secret_key plus a fresh verify-only context. -/
def Secp256k1PrivateKey.pub_key (E : CurveEngine SK PK SG)
    (self : Secp256k1PrivateKey SK) : Secp256k1PublicKey PK :=
  { pub_key := E.publicKeyFromSecretKey self.secret_key
  , engine := VerifyOnly.verificationOnly }

/-- Secp256k1PrivateKey::to_bytes (source lines 60 to 65): copies the 32
bytes of the secret key out. -/
def Secp256k1PrivateKey.to_bytes (E : CurveEngine SK PK SG)
    (self : Secp256k1PrivateKey SK) : List Nat :=
  E.secretKeySerialize self.secret_key

/-- impl TryFrom for Secp256k1PublicKey (source lines 72 to 81):
PublicKey::from_slice, errors mapped into CryptoError. -/
def Secp256k1PublicKey.try_from (E : CurveEngine SK PK SG) (bytes : List Nat) :
    Except CryptoError (Secp256k1PublicKey PK) :=
  match E.publicKeyFromSlice bytes with
  | Except.error e => Except.error (CryptoError.fromSecp256k1Error (Secp256k1Error.mk e))
  | Except.ok pub_key =>
      Except.ok { pub_key := pub_key, engine := VerifyOnly.verificationOnly }

/-- Secp256k1PublicKey::verify_signature (source lines 86 to 94): bridge
the digest, call the engine verify, map a failure through the error
mapper, return unit on success. -/
def Secp256k1PublicKey.verify_signature (E : CurveEngine SK PK SG)
    (self : Secp256k1PublicKey PK) (msg : Hash) (sig : Secp256k1Signature SG) :
    Except CryptoError Unit :=
  let m := Message.fromHashed (HashedMessage.mk msg)
  match E.verify m sig.sig self.pub_key with
  | Except.error e => Except.error (CryptoError.fromSecp256k1Error (Secp256k1Error.mk e))
  | Except.ok _ => Except.ok ()

/-- Secp256k1PublicKey::to_bytes (source lines 96 to 98): the 33-byte
compressed serialization of the engine. -/
def Secp256k1PublicKey.to_bytes (E : CurveEngine SK PK SG)
    (self : Secp256k1PublicKey PK) : List Nat :=
  E.publicKeySerialize self.pub_key

/-- impl TryFrom for Secp256k1Signature (source lines 105 to 114):
Signature::from_compact, errors mapped into CryptoError. -/
def Secp256k1Signature.try_from (E : CurveEngine SK PK SG) (bytes : List Nat) :
    Except CryptoError (Secp256k1Signature SG) :=
  match E.signatureFromCompact bytes with
  | Except.error e => Except.error (CryptoError.fromSecp256k1Error (Secp256k1Error.mk e))
  | Except.ok sig => Except.ok { sig := sig, engine := VerifyOnly.verificationOnly }

/-- Secp256k1Signature::verify (source lines 119 to 127): same body as
verify_signature, invoked from the signature side. -/
def Secp256k1Signature.verify (E : CurveEngine SK PK SG)
    (self : Secp256k1Signature SG) (msg : Hash) (pub_key : Secp256k1PublicKey PK) :
    Except CryptoError Unit :=
  let m := Message.fromHashed (HashedMessage.mk msg)
  match E.verify m self.sig pub_key.pub_key with
  | Except.error e => Except.error (CryptoError.fromSecp256k1Error (Secp256k1Error.mk e))
  | Except.ok _ => Except.ok ()

/-- Secp256k1Signature::to_bytes (source lines 129 to 131): the 64-byte
compact serialization of the engine. -/
def Secp256k1Signature.to_bytes (E : CurveEngine SK PK SG)
    (self : Secp256k1Signature SG) : List Nat :=
  E.signatureSerializeCompact self.sig

/-- Engine contract (spec section 6): verifying a freshly produced
signature under the derived public key succeeds. -/
def CurveEngine.SignVerifyCorrect (E : CurveEngine SK PK SG) : Prop :=
  ∀ (m : List Nat) (sk : SK),
    E.verify m (E.sign m sk) (E.publicKeyFromSecretKey sk) = Except.ok ()

/-- Engine contract: parsing the serialization of a secret key gives the
key back. -/
def CurveEngine.SecretKeyRoundTrip (E : CurveEngine SK PK SG) : Prop :=
  ∀ sk : SK, E.secretKeyFromSlice (E.secretKeySerialize sk) = Except.ok sk

/-- Engine contract: parsing the 33-byte compressed serialization of a
public key gives the key back. -/
def CurveEngine.PublicKeyRoundTrip (E : CurveEngine SK PK SG) : Prop :=
  ∀ pk : PK, E.publicKeyFromSlice (E.publicKeySerialize pk) = Except.ok pk

/-- Engine contract: parsing the 64-byte compact serialization of a
signature gives the signature back. -/
def CurveEngine.SignatureRoundTrip (E : CurveEngine SK PK SG) : Prop :=
  ∀ sg : SG, E.signatureFromCompact (E.signatureSerializeCompact sg) = Except.ok sg

/-- Engine contract: SecretKey::from_slice rejects any byte string whose
length is not 32 with the native InvalidSecretKey error. -/
def CurveEngine.RejectsWrongLengthSecretKey (E : CurveEngine SK PK SG) : Prop :=
  ∀ bytes : List Nat, bytes.length ≠ 32 →
    E.secretKeyFromSlice bytes = Except.error Secp256k1.Error.InvalidSecretKey

/-- Engine contract: PublicKey::from_slice rejects any byte string whose
length is neither 33 (compressed) nor 65 (uncompressed) with the native
InvalidPublicKey error. -/
def CurveEngine.RejectsWrongLengthPublicKey (E : CurveEngine SK PK SG) : Prop :=
  ∀ bytes : List Nat, bytes.length ≠ 33 → bytes.length ≠ 65 →
    E.publicKeyFromSlice bytes = Except.error Secp256k1.Error.InvalidPublicKey

/-- Engine contract: Signature::from_compact rejects any byte string
whose length is not 64 with the native InvalidSignature error. -/
def CurveEngine.RejectsWrongLengthSignature (E : CurveEngine SK PK SG) : Prop :=
  ∀ bytes : List Nat, bytes.length ≠ 64 →
    E.signatureFromCompact bytes = Except.error Secp256k1.Error.InvalidSignature

/-- Engine contract: verification either succeeds or fails with the
native IncorrectSignature error, the only failure the verify primitive of
the crate reports for parsed signatures and keys. -/
def CurveEngine.VerifyOkOrIncorrect (E : CurveEngine SK PK SG) : Prop :=
  ∀ (m : List Nat) (s : SG) (p : PK),
    E.verify m s p = Except.ok () ∨
      E.verify m s p = Except.error Secp256k1.Error.IncorrectSignature

/-- Engine contract: the public key serialization always has 33 bytes
(compressed form), whatever encoding the key was parsed from. -/
def CurveEngine.Serializes33BytePublicKeys (E : CurveEngine SK PK SG) : Prop :=
  ∀ pk : PK, (E.publicKeySerialize pk).length = 33

/-- A small concrete engine used to instantiate the abstract engine in
witnesses.  Its parse functions accept exactly the byte lengths the
secp256k1 crate accepts (32 for secret keys, 33 or 65 for public keys,
64 for compact signatures) and fail with the same native errors; signing
pairs the first message byte with the secret scalar so that verification
can recheck it. -/
def toyEngine : CurveEngine Nat Nat Nat where
  secretKeyFromSlice bytes :=
    if bytes.length = 32 then Except.ok (bytes.headD 0)
    else Except.error Secp256k1.Error.InvalidSecretKey
  secretKeySerialize sk := sk :: List.replicate 31 0
  publicKeyFromSlice bytes :=
    if bytes.length = 33 ∨ bytes.length = 65 then Except.ok (bytes.headD 0)
    else Except.error Secp256k1.Error.InvalidPublicKey
  publicKeySerialize pk := pk :: List.replicate 32 0
  signatureFromCompact bytes :=
    if bytes.length = 64 then Except.ok (bytes.headD 0)
    else Except.error Secp256k1.Error.InvalidSignature
  signatureSerializeCompact sg := sg :: List.replicate 63 0
  publicKeyFromSecretKey sk := sk
  sign m sk := Nat.pair (m.headD 0) sk
  verify m s p :=
    if s = Nat.pair (m.headD 0) p then Except.ok ()
    else Except.error Secp256k1.Error.IncorrectSignature

theorem toyEngine_signVerifyCorrect : toyEngine.SignVerifyCorrect := by
  intro m sk
  simp [toyEngine, CurveEngine.SignVerifyCorrect]

theorem toyEngine_secretKeyRoundTrip : toyEngine.SecretKeyRoundTrip := by
  intro sk
  simp [toyEngine, CurveEngine.SecretKeyRoundTrip]

theorem toyEngine_publicKeyRoundTrip : toyEngine.PublicKeyRoundTrip := by
  intro pk
  simp [toyEngine, CurveEngine.PublicKeyRoundTrip]

theorem toyEngine_signatureRoundTrip : toyEngine.SignatureRoundTrip := by
  intro sg
  simp [toyEngine, CurveEngine.SignatureRoundTrip]

theorem toyEngine_rejectsSecret : toyEngine.RejectsWrongLengthSecretKey := by
  intro bytes h
  simp [toyEngine, CurveEngine.RejectsWrongLengthSecretKey, h]

theorem toyEngine_rejectsPublic : toyEngine.RejectsWrongLengthPublicKey := by
  intro bytes h33 h65
  simp [toyEngine, CurveEngine.RejectsWrongLengthPublicKey, h33, h65]

theorem toyEngine_rejectsSignature : toyEngine.RejectsWrongLengthSignature := by
  intro bytes h
  simp [toyEngine, CurveEngine.RejectsWrongLengthSignature, h]

theorem toyEngine_verifyOkOrIncorrect : toyEngine.VerifyOkOrIncorrect := by
  intro m s p
  by_cases h : s = Nat.pair (m.headD 0) p
  · left
    simp [toyEngine, h]
  · right
    have hv : toyEngine.verify m s p =
        if s = Nat.pair (m.headD 0) p then Except.ok ()
        else Except.error Secp256k1.Error.IncorrectSignature := rfl
    rw [hv, if_neg h]

theorem toyEngine_serializes33 : toyEngine.Serializes33BytePublicKeys := by
  intro pk
  simp [toyEngine, CurveEngine.Serializes33BytePublicKeys]

/-- C2 counterexample: the mapper sends InvalidTweak to
Other "secp256k1: bad tweak", not to Other "bad tweak" as the claim
states (and likewise NotEnoughMemory carries a "secp256k1: " prefix). -/
theorem c2_error_mapper_cex :
    CryptoError.fromSecp256k1Error (Secp256k1Error.mk Secp256k1.Error.InvalidTweak) =
        CryptoError.Other ("secp256k1: bad tweak") ∧
      CryptoError.fromSecp256k1Error (Secp256k1Error.mk Secp256k1.Error.InvalidTweak) ≠
        CryptoError.Other ("bad tweak") := by
  constructor
  · rfl
  · decide

/-- C2 amended: the mapper is total over the eight native variants (the
eight equations below exhaust the enumeration) and maps
IncorrectSignature, InvalidSignature and InvalidRecoveryId to
InvalidSignature, InvalidMessage to InvalidLength, InvalidPublicKey to
InvalidPublicKey, InvalidSecretKey to InvalidPrivateKey, InvalidTweak to
Other "secp256k1: bad tweak" and NotEnoughMemory to
Other "secp256k1: not enough memory". -/
theorem c2_error_mapper_table :
    CryptoError.fromSecp256k1Error (Secp256k1Error.mk Secp256k1.Error.IncorrectSignature) =
        CryptoError.InvalidSignature ∧
      CryptoError.fromSecp256k1Error (Secp256k1Error.mk Secp256k1.Error.InvalidMessage) =
        CryptoError.InvalidLength ∧
      CryptoError.fromSecp256k1Error (Secp256k1Error.mk Secp256k1.Error.InvalidPublicKey) =
        CryptoError.InvalidPublicKey ∧
      CryptoError.fromSecp256k1Error (Secp256k1Error.mk Secp256k1.Error.InvalidSignature) =
        CryptoError.InvalidSignature ∧
      CryptoError.fromSecp256k1Error (Secp256k1Error.mk Secp256k1.Error.InvalidSecretKey) =
        CryptoError.InvalidPrivateKey ∧
      CryptoError.fromSecp256k1Error (Secp256k1Error.mk Secp256k1.Error.InvalidRecoveryId) =
        CryptoError.InvalidSignature ∧
      CryptoError.fromSecp256k1Error (Secp256k1Error.mk Secp256k1.Error.InvalidTweak) =
        CryptoError.Other ("secp256k1: bad tweak") ∧
      CryptoError.fromSecp256k1Error (Secp256k1Error.mk Secp256k1.Error.NotEnoughMemory) =
        CryptoError.Other ("secp256k1: not enough memory") :=
  ⟨rfl, rfl, rfl, rfl, rfl, rfl, rfl, rfl⟩

/-- C3: for every digest, signature and public key, the two verification
entry points agree: verify_signature on the public key and verify on the
signature produce the same result, for every engine. -/
theorem c3_verify_entry_points_agree (E : CurveEngine SK PK SG)
    (d : Hash) (s : Secp256k1Signature SG) (p : Secp256k1PublicKey PK) :
    Secp256k1PublicKey.verify_signature E p d s = Secp256k1Signature.verify E s d p :=
  rfl

/-- C8: sign_message is total: for every private key and 32-byte digest
it returns the signature built from the engine sign primitive together
with a fresh verify-only context; its codomain is the signature type, so
no error or panic path exists at this layer. -/
theorem c8_sign_message_total (E : CurveEngine SK PK SG)
    (k : Secp256k1PrivateKey SK) (d : Hash) (h32 : d.to_bytes.length = 32) :
    Secp256k1PrivateKey.sign_message E k d =
      { sig := E.sign (Message.fromHashed (HashedMessage.mk d)) k.secret_key
      , engine := VerifyOnly.verificationOnly } :=
  rfl

/-- C8 witness: sign_message evaluated on the toy engine, the secret
scalar 5 and the all-zero 32-byte digest. -/
theorem c8_sign_message_total_witness :
    Secp256k1PrivateKey.sign_message toyEngine
        (Secp256k1PrivateKey.mk 5 SignOnly.signingOnly) (Hash.mk (List.replicate 32 0)) =
      { sig := toyEngine.sign
          (Message.fromHashed (HashedMessage.mk (Hash.mk (List.replicate 32 0)))) 5
      , engine := VerifyOnly.verificationOnly } :=
  c8_sign_message_total toyEngine (Secp256k1PrivateKey.mk 5 SignOnly.signingOnly)
    (Hash.mk (List.replicate 32 0)) (by decide)

/-- C9: public key derivation is deterministic: two private keys holding
the same secret scalar derive public keys with identical serialized
encodings. -/
theorem c9_pub_key_deterministic (E : CurveEngine SK PK SG)
    (k1 k2 : Secp256k1PrivateKey SK) (h : k1.secret_key = k2.secret_key) :
    Secp256k1PublicKey.to_bytes E (Secp256k1PrivateKey.pub_key E k1) =
      Secp256k1PublicKey.to_bytes E (Secp256k1PrivateKey.pub_key E k2) := by
  simp [Secp256k1PublicKey.to_bytes, Secp256k1PrivateKey.pub_key, h]

/-- C9 witness: two derivations from the secret scalar 7 on the toy
engine serialize identically. -/
theorem c9_pub_key_deterministic_witness :
    Secp256k1PublicKey.to_bytes toyEngine
        (Secp256k1PrivateKey.pub_key toyEngine (Secp256k1PrivateKey.mk 7 SignOnly.signingOnly)) =
      Secp256k1PublicKey.to_bytes toyEngine
        (Secp256k1PrivateKey.pub_key toyEngine (Secp256k1PrivateKey.mk 7 SignOnly.signingOnly)) :=
  c9_pub_key_deterministic toyEngine (Secp256k1PrivateKey.mk 7 SignOnly.signingOnly)
    (Secp256k1PrivateKey.mk 7 SignOnly.signingOnly) rfl

/-- C1: for every engine satisfying the sign and verify contract of spec
section 6, every private key accepted by try_from and every 32-byte
digest, verifying the signature produced by sign_message against the
derived public key via verify_signature succeeds. -/
theorem c1_sign_then_verify_ok (E : CurveEngine SK PK SG)
    (hE : E.SignVerifyCorrect) (bs : List Nat) (k : Secp256k1PrivateKey SK)
    (hk : Secp256k1PrivateKey.try_from E bs = Except.ok k)
    (d : Hash) (h32 : d.to_bytes.length = 32) :
    Secp256k1PublicKey.verify_signature E (Secp256k1PrivateKey.pub_key E k) d
      (Secp256k1PrivateKey.sign_message E k d) = Except.ok () := by
  simp only [Secp256k1PublicKey.verify_signature, Secp256k1PrivateKey.pub_key,
    Secp256k1PrivateKey.sign_message, Message.fromHashed, HashedMessage.into_32,
    HashedMessage.to_bytes, Hash.to_bytes]
  rw [hE d.bytes k.secret_key]

/-- C1 witness: on the toy engine the key parsed from the byte string
starting with 5 signs the all-zero digest and the derived public key
verifies it. -/
theorem c1_sign_then_verify_ok_witness :
    Secp256k1PublicKey.verify_signature toyEngine
        (Secp256k1PrivateKey.pub_key toyEngine (Secp256k1PrivateKey.mk 5 SignOnly.signingOnly))
        (Hash.mk (List.replicate 32 0))
        (Secp256k1PrivateKey.sign_message toyEngine
          (Secp256k1PrivateKey.mk 5 SignOnly.signingOnly) (Hash.mk (List.replicate 32 0))) =
      Except.ok () :=
  c1_sign_then_verify_ok toyEngine toyEngine_signVerifyCorrect
    (5 :: List.replicate 31 0) (Secp256k1PrivateKey.mk 5 SignOnly.signingOnly) rfl
    (Hash.mk (List.replicate 32 0)) (by decide)

/-- C4 amended: for an engine whose parse primitives reject wrong-length
input as the secp256k1 crate does, try_from on a byte string whose length
is wrong for the type (not 32 for private keys, neither 33 nor 65 for
public keys, not 64 for signatures) fails with InvalidPrivateKey,
InvalidPublicKey and InvalidSignature respectively.  The original claim
allowed only 33 for public keys; the crate also accepts 65-byte
uncompressed encodings, see the counterexample. -/
theorem c4_wrong_length_parse_fails (E : CurveEngine SK PK SG)
    (hsk : E.RejectsWrongLengthSecretKey) (hpk : E.RejectsWrongLengthPublicKey)
    (hsg : E.RejectsWrongLengthSignature) (bytes : List Nat) :
    (bytes.length ≠ 32 →
        Secp256k1PrivateKey.try_from E bytes = Except.error CryptoError.InvalidPrivateKey) ∧
      (bytes.length ≠ 33 → bytes.length ≠ 65 →
        Secp256k1PublicKey.try_from E bytes = Except.error CryptoError.InvalidPublicKey) ∧
      (bytes.length ≠ 64 →
        Secp256k1Signature.try_from E bytes = Except.error CryptoError.InvalidSignature) := by
  refine ⟨fun h => ?_, fun h33 h65 => ?_, fun h => ?_⟩
  · simp [Secp256k1PrivateKey.try_from, hsk bytes h, CryptoError.fromSecp256k1Error]
  · simp [Secp256k1PublicKey.try_from, hpk bytes h33 h65, CryptoError.fromSecp256k1Error]
  · simp [Secp256k1Signature.try_from, hsg bytes h, CryptoError.fromSecp256k1Error]

/-- C4 counterexample: with the toy engine, which follows the length
behaviour of the secp256k1 crate, a 65-byte input (wrong length per the
claim, which admits only 33) parses successfully into a public key
instead of failing with InvalidPublicKey. -/
theorem c4_wrong_length_parse_fails_cex :
    (List.replicate 65 1).length ≠ 33 ∧
      Secp256k1PublicKey.try_from toyEngine (List.replicate 65 1) =
        Except.ok { pub_key := 1, engine := VerifyOnly.verificationOnly } := by
  constructor
  · decide
  · rfl

/-- C4 witness: each try_from rejects the one-byte input with the claimed
error kind on the toy engine. -/
theorem c4_wrong_length_parse_fails_witness :
    Secp256k1PrivateKey.try_from toyEngine [0] = Except.error CryptoError.InvalidPrivateKey ∧
      Secp256k1PublicKey.try_from toyEngine [0] = Except.error CryptoError.InvalidPublicKey ∧
      Secp256k1Signature.try_from toyEngine [0] = Except.error CryptoError.InvalidSignature :=
  ⟨(c4_wrong_length_parse_fails toyEngine toyEngine_rejectsSecret toyEngine_rejectsPublic
      toyEngine_rejectsSignature [0]).1 (by decide),
   (c4_wrong_length_parse_fails toyEngine toyEngine_rejectsSecret toyEngine_rejectsPublic
      toyEngine_rejectsSignature [0]).2.1 (by decide) (by decide),
   (c4_wrong_length_parse_fails toyEngine toyEngine_rejectsSecret toyEngine_rejectsPublic
      toyEngine_rejectsSignature [0]).2.2 (by decide)⟩

/-- C5: for an engine whose secret key parse inverts its serialization,
parsing the bytes exported by to_bytes succeeds and yields the private
key back, hence a key with identical to_bytes output. -/
theorem c5_private_key_roundtrip (E : CurveEngine SK PK SG)
    (hE : E.SecretKeyRoundTrip) (k : Secp256k1PrivateKey SK) :
    Secp256k1PrivateKey.try_from E (Secp256k1PrivateKey.to_bytes E k) = Except.ok k := by
  cases k with
  | mk sk eng =>
    cases eng
    simp [Secp256k1PrivateKey.try_from, Secp256k1PrivateKey.to_bytes, hE sk]

/-- C5 witness: the round trip evaluated on the toy engine at the secret
scalar 5. -/
theorem c5_private_key_roundtrip_witness :
    Secp256k1PrivateKey.try_from toyEngine
        (Secp256k1PrivateKey.to_bytes toyEngine (Secp256k1PrivateKey.mk 5 SignOnly.signingOnly)) =
      Except.ok (Secp256k1PrivateKey.mk 5 SignOnly.signingOnly) :=
  c5_private_key_roundtrip toyEngine toyEngine_secretKeyRoundTrip
    (Secp256k1PrivateKey.mk 5 SignOnly.signingOnly)

/-- C6: for an engine whose public key and signature parses invert their
serializations, parsing the 33-byte encoding of a public key and the
64-byte encoding of a signature succeeds and yields the same values back,
hence the same exported bytes. -/
theorem c6_public_key_signature_roundtrip (E : CurveEngine SK PK SG)
    (hpk : E.PublicKeyRoundTrip) (hsg : E.SignatureRoundTrip)
    (p : Secp256k1PublicKey PK) (s : Secp256k1Signature SG) :
    Secp256k1PublicKey.try_from E (Secp256k1PublicKey.to_bytes E p) = Except.ok p ∧
      Secp256k1Signature.try_from E (Secp256k1Signature.to_bytes E s) = Except.ok s := by
  constructor
  · cases p with
    | mk pk eng =>
      cases eng
      simp [Secp256k1PublicKey.try_from, Secp256k1PublicKey.to_bytes, hpk pk]
  · cases s with
    | mk sg eng =>
      cases eng
      simp [Secp256k1Signature.try_from, Secp256k1Signature.to_bytes, hsg sg]

/-- C6 witness: the round trips evaluated on the toy engine at the public
key 3 and the signature 4. -/
theorem c6_public_key_signature_roundtrip_witness :
    Secp256k1PublicKey.try_from toyEngine
        (Secp256k1PublicKey.to_bytes toyEngine
          (Secp256k1PublicKey.mk 3 VerifyOnly.verificationOnly)) =
      Except.ok (Secp256k1PublicKey.mk 3 VerifyOnly.verificationOnly) ∧
      Secp256k1Signature.try_from toyEngine
        (Secp256k1Signature.to_bytes toyEngine
          (Secp256k1Signature.mk 4 VerifyOnly.verificationOnly)) =
      Except.ok (Secp256k1Signature.mk 4 VerifyOnly.verificationOnly) :=
  c6_public_key_signature_roundtrip toyEngine toyEngine_publicKeyRoundTrip
    toyEngine_signatureRoundTrip (Secp256k1PublicKey.mk 3 VerifyOnly.verificationOnly)
    (Secp256k1Signature.mk 4 VerifyOnly.verificationOnly)

/-- C7: for an engine whose verify primitive fails only with the native
IncorrectSignature error, verify_signature returns Ok unit when the
signature validates against the key and digest, and fails with exactly
InvalidSignature when it does not. -/
theorem c7_verify_signature_error_kind (E : CurveEngine SK PK SG)
    (hE : E.VerifyOkOrIncorrect) (p : Secp256k1PublicKey PK) (d : Hash)
    (h32 : d.to_bytes.length = 32) (s : Secp256k1Signature SG) :
    (E.verify (Message.fromHashed (HashedMessage.mk d)) s.sig p.pub_key = Except.ok () →
        Secp256k1PublicKey.verify_signature E p d s = Except.ok ()) ∧
      (E.verify (Message.fromHashed (HashedMessage.mk d)) s.sig p.pub_key ≠ Except.ok () →
        Secp256k1PublicKey.verify_signature E p d s =
          Except.error CryptoError.InvalidSignature) := by
  constructor
  · intro hok
    simp [Secp256k1PublicKey.verify_signature, hok]
  · intro hne
    rcases hE (Message.fromHashed (HashedMessage.mk d)) s.sig p.pub_key with hok | herr
    · exact absurd hok hne
    · simp [Secp256k1PublicKey.verify_signature, herr, CryptoError.fromSecp256k1Error]

/-- C7 witness: on the toy engine the signature 999 does not validate
against public key 0 and the all-zero digest, and verify_signature fails
with InvalidSignature. -/
theorem c7_verify_signature_error_kind_witness :
    Secp256k1PublicKey.verify_signature toyEngine
        (Secp256k1PublicKey.mk 0 VerifyOnly.verificationOnly) (Hash.mk (List.replicate 32 0))
        (Secp256k1Signature.mk 999 VerifyOnly.verificationOnly) =
      Except.error CryptoError.InvalidSignature :=
  (c7_verify_signature_error_kind toyEngine toyEngine_verifyOkOrIncorrect
      (Secp256k1PublicKey.mk 0 VerifyOnly.verificationOnly) (Hash.mk (List.replicate 32 0))
      (by decide) (Secp256k1Signature.mk 999 VerifyOnly.verificationOnly)).2
    (fun h => Except.noConfusion h)

/-- C10: for an engine that accepts some 65-byte (uncompressed) public
key encoding and always serializes public keys to 33 bytes, try_from on
that 65-byte input succeeds and the resulting key exports the 33-byte
compressed encoding. -/
theorem c10_uncompressed_accepted (E : CurveEngine SK PK SG)
    (bytes : List Nat) (pk : PK) (h65 : bytes.length = 65)
    (hacc : E.publicKeyFromSlice bytes = Except.ok pk)
    (hser : E.Serializes33BytePublicKeys) :
    Secp256k1PublicKey.try_from E bytes =
        Except.ok { pub_key := pk, engine := VerifyOnly.verificationOnly } ∧
      (Secp256k1PublicKey.to_bytes E
          { pub_key := pk, engine := VerifyOnly.verificationOnly }).length = 33 := by
  constructor
  · simp [Secp256k1PublicKey.try_from, hacc]
  · simpa [Secp256k1PublicKey.to_bytes] using hser pk

/-- C10 witness: the toy engine accepts the 65-byte input of all twos and
the parsed key serializes to 33 bytes. -/
theorem c10_uncompressed_accepted_witness :
    Secp256k1PublicKey.try_from toyEngine (List.replicate 65 2) =
        Except.ok { pub_key := 2, engine := VerifyOnly.verificationOnly } ∧
      (Secp256k1PublicKey.to_bytes toyEngine
          { pub_key := 2, engine := VerifyOnly.verificationOnly }).length = 33 :=
  c10_uncompressed_accepted toyEngine (List.replicate 65 2) 2 (by decide) rfl
    toyEngine_serializes33
